import Mathlib

/-!
Shallow embedding of the ranking-retrieval engine of
`gamestats_database.py` (GamestatsHTTP Server Project).

Modelling conventions:
* The `ranking` table is a `List Row` in insertion (rowid) order.
* SQL `SELECT ... WHERE` is `List.filter`; `fetchone` is `List.head?`;
  `SELECT COUNT(*)` is the length of the filtered list.
* Timestamps are integers counted in minutes; `datetime(1970, 1, 1)` is `0`
  and `datetime.now()` is an explicit `now` parameter, so
  `datetime.now() - timedelta(minutes=m)` becomes `now - m`.
* SQLite behaviours the code relies on are embedded faithfully: an
  `ORDER BY` clause whose direction modifier is the empty string (unknown or
  absent `filter` key) sorts ascending, `LIMIT n` with negative `n` is
  unbounded, and `pid IN ()` with an empty literal list is an always-false
  predicate (SQLite accepts the empty list).
* The Python options dict is a structure; the in-place write of
  `data["since"]` performed by `web_get2` is modelled by returning the
  updated options record next to the result.
* `ORDER BY` on ties is realised by a deterministic stable sort, matching
  the stable `list.sort` used on the Python side.
-/

namespace Gamestats

/-- One row of the `ranking` table: columns
`(gamename, pid, region, category, score, data, updated)`. -/
structure Row where
  gamename : String
  pid : Int
  region : Nat
  category : Int
  score : Int
  data : String
  updated : Int
deriving DecidableEq, Repr

/-- Embeds `get2_dictrow`: the factory for the synthetic default row,
with default attributes `score=0`, `data=b""`, `updated=0`. -/
def get2_dictrow (gamename : String) (pid : Int) (region : Nat) (category : Int)
    (score : Int := 0) (data : String := "") (updated : Int := 0) : Row :=
  ⟨gamename, pid, region, category, score, data, updated⟩

/-- The per-request options dict (`data` in the Python code).  Absent keys
are `none`; the `since` key is always written by `web_get2` before dispatch,
so it is kept as a plain field (its pre-call content is irrelevant to every
reader, which runs after `web_get2` wrote it). -/
structure Options where
  updated : Option Int := none
  limit : Option Int := none
  filter : Option Int := none
  friends : Option (List Int) := none
  since : Int := 0
deriving DecidableEq, Repr

/-- Stable insertion of `x` into `l`: `x` goes in front of the first element
`y` with `le x y`.  Together with `sortByLe` this is a stable insertion
sort: elements with equal keys keep their original relative order, which is
the guarantee of the Python `list.sort` and a deterministic realisation of
the SQLite `ORDER BY`. -/
def insertByLe (le : Row → Row → Bool) (x : Row) : List Row → List Row
  | [] => [x]
  | y :: ys => if le x y then x :: y :: ys else y :: insertByLe le x ys

/-- Stable insertion sort with boolean comparison `le` (see `insertByLe`). -/
def sortByLe (le : Row → Row → Bool) : List Row → List Row
  | [] => []
  | x :: xs => insertByLe le x (sortByLe le xs)

/-- Embeds the `FILTERS` class attribute of `GamestatsDatabase` combined
with the lookup `FILTERS.get(data.get("filter"), "")`: key `0` maps to
`"ASC"`, key `1` to `"DESC"`, and any other (or absent) key to the empty
direction modifier. -/
def FILTERS (k : Option Int) : String :=
  match k with
  | some 0 => "ASC"
  | some 1 => "DESC"
  | _ => ""

/-- SQLite `ORDER BY key dir`: the direction modifier `"DESC"` sorts
descending; `"ASC"` and the empty modifier sort ascending (ascending is the
SQL default). -/
def sqlOrderBy (key : Row → Int) (dir : String) (rows : List Row) : List Row :=
  if dir = "DESC" then sortByLe (fun a b => decide (key b ≤ key a)) rows
  else sortByLe (fun a b => decide (key a ≤ key b)) rows

/-- SQLite `LIMIT n`: a negative `n` means "no limit", otherwise the first
`n` rows are kept. -/
def sqlLimit (n : Int) (rows : List Row) : List Row :=
  if n < 0 then rows else rows.take n.toNat

/-- Embeds the module-level `sort_rows(data, rows, mine=None)`: with no
`mine` the rows are returned unchanged; otherwise the rows are re-sorted in
memory by score — descending when `data.get("filter", 1)` is truthy,
ascending otherwise — and `mine` is prepended. -/
def sort_rows (data : Options) (rows : List Row) (mine : Option Row) : List Row :=
  match mine with
  | none => rows
  | some m =>
    if data.filter.getD 1 ≠ 0 then
      m :: sortByLe (fun a b => decide (b.score ≤ a.score)) rows
    else
      m :: sortByLe (fun a b => decide (a.score ≤ b.score)) rows

/-- The own-row lookup repeated verbatim at the top of modes 2..5:
`SELECT * FROM ranking WHERE gamename = ? AND region & ? AND category = ?
AND pid = ?` followed by `fetchone()`.  Note the region test is the bitmask
test and there is no `updated >= since` condition. -/
def fetch_mine (store : List Row) (gamename : String) (pid : Int)
    (region : Nat) (category : Int) : Option Row :=
  (store.filter (fun r =>
    decide (r.gamename = gamename) && decide (r.region &&& region ≠ 0) &&
    decide (r.category = category) && decide (r.pid = pid))).head?

/-- Embeds `GamestatsDatabase.web_get2_own` (mode 0).  The `LIMIT` clause is
appended only when `data.get("limit", 0)` is truthy, i.e. when the key is
present with a nonzero value. -/
def web_get2_own (store : List Row) (gamename : String) (pid : Int)
    (region : Nat) (category : Int) (data : Options) : Nat × List Row :=
  let matched := store.filter (fun r =>
    decide (r.gamename = gamename) && decide (r.region &&& region ≠ 0) &&
    decide (r.category = category) && decide (data.since ≤ r.updated))
  let ordered := sqlOrderBy (fun r => r.score) (FILTERS data.filter) matched
  let rows :=
    match data.limit with
    | some l => if l = 0 then ordered else sqlLimit l ordered
    | none => ordered
  let total := (store.filter (fun r =>
    decide (r.gamename = gamename) && decide (r.region &&& region ≠ 0) &&
    decide (r.category = category) && decide (data.since ≤ r.updated))).length
  (total, sort_rows data rows none)

/-- Embeds `GamestatsDatabase.web_get2_top` (mode 1): same shape as mode 0
but with `LIMIT data.get("limit", 10)` always applied. -/
def web_get2_top (store : List Row) (gamename : String) (pid : Int)
    (region : Nat) (category : Int) (data : Options) : Nat × List Row :=
  let matched := store.filter (fun r =>
    decide (r.gamename = gamename) && decide (r.region &&& region ≠ 0) &&
    decide (r.category = category) && decide (data.since ≤ r.updated))
  let ordered := sqlOrderBy (fun r => r.score) (FILTERS data.filter) matched
  let rows := sqlLimit (data.limit.getD 10) ordered
  let total := (store.filter (fun r =>
    decide (r.gamename = gamename) && decide (r.region &&& region ≠ 0) &&
    decide (r.category = category) && decide (data.since ≤ r.updated))).length
  (total, sort_rows data rows none)

/-- Embeds `GamestatsDatabase.web_get2_nearby` (mode 2): peers with
`pid != ?` ordered by `ABS(? - score)` with `? = mine["score"]`, limited to
`data.get("limit", 10) - 1`; the count omits the `ABS` ordering but keeps
the `pid != ?` and `updated >= ?` conditions. -/
def web_get2_nearby (store : List Row) (gamename : String) (pid : Int)
    (region : Nat) (category : Int) (data : Options) : Nat × List Row :=
  let mine := (fetch_mine store gamename pid region category).getD
    (get2_dictrow gamename pid 4294967295 category)
  let peers := store.filter (fun r =>
    decide (r.gamename = gamename) && decide (r.region &&& region ≠ 0) &&
    decide (r.category = category) && decide (r.pid ≠ pid) &&
    decide (data.since ≤ r.updated))
  let ordered := sqlOrderBy (fun r => ((mine.score - r.score).natAbs : Int))
    (FILTERS data.filter) peers
  let others := sqlLimit (data.limit.getD 10 - 1) ordered
  let total := (store.filter (fun r =>
    decide (r.gamename = gamename) && decide (r.region &&& region ≠ 0) &&
    decide (r.category = category) && decide (r.pid ≠ pid) &&
    decide (data.since ≤ r.updated))).length
  (total, sort_rows data others (some mine))

/-- Embeds `GamestatsDatabase.web_get2_friends` (mode 3): the peer query
uses exact region equality `region = ?` and `pid IN (...)` over the literal
friend list (`data.get("friends", [])`); the own-row lookup above it still
uses the bitmask test `region & ?`. -/
def web_get2_friends (store : List Row) (gamename : String) (pid : Int)
    (region : Nat) (category : Int) (data : Options) : Nat × List Row :=
  let mine := (fetch_mine store gamename pid region category).getD
    (get2_dictrow gamename pid 4294967295 category)
  let fl := data.friends.getD []
  let peers := store.filter (fun r =>
    decide (r.gamename = gamename) && decide (r.region = region) &&
    decide (r.category = category) && fl.contains r.pid &&
    decide (data.since ≤ r.updated))
  let ordered := sqlOrderBy (fun r => r.score) (FILTERS data.filter) peers
  let rows := sqlLimit (data.limit.getD 10 - 1) ordered
  let total := (store.filter (fun r =>
    decide (r.gamename = gamename) && decide (r.region = region) &&
    decide (r.category = category) && fl.contains r.pid &&
    decide (data.since ≤ r.updated))).length
  (total, sort_rows data rows (some mine))

/-- The SQL text of the mode-3 peer query as the Python `str.format` call
builds it (whitespace normalised to single spaces): the friend pids are
interpolated as a comma-separated literal list inside `IN (...)` and the
direction modifier comes from `FILTERS`.  There is no special case for an
empty list: `friends = []` yields the text `... pid IN () ...`. -/
def web_get2_friends_query_sql (friends : List Int) (filterKey : Option Int) : String :=
  "SELECT * FROM ranking WHERE gamename = ? AND region = ? AND category = ?" ++
    " AND pid IN (" ++ String.intercalate ", " (friends.map toString) ++
    ") AND updated >= ? ORDER BY score " ++ FILTERS filterKey ++ " LIMIT ?"

/-- Embeds `GamestatsDatabase.web_get2_nearhi` (mode 4): peers with
`pid != ?` and `(score - ?) >= 0` against `mine["score"]`. -/
def web_get2_nearhi (store : List Row) (gamename : String) (pid : Int)
    (region : Nat) (category : Int) (data : Options) : Nat × List Row :=
  let mine := (fetch_mine store gamename pid region category).getD
    (get2_dictrow gamename pid 4294967295 category)
  let peers := store.filter (fun r =>
    decide (r.gamename = gamename) && decide (r.region &&& region ≠ 0) &&
    decide (r.category = category) && decide (r.pid ≠ pid) &&
    decide (0 ≤ r.score - mine.score) && decide (data.since ≤ r.updated))
  let ordered := sqlOrderBy (fun r => r.score) (FILTERS data.filter) peers
  let others := sqlLimit (data.limit.getD 10 - 1) ordered
  let total := (store.filter (fun r =>
    decide (r.gamename = gamename) && decide (r.region &&& region ≠ 0) &&
    decide (r.category = category) && decide (r.pid ≠ pid) &&
    decide (0 ≤ r.score - mine.score) && decide (data.since ≤ r.updated))).length
  (total, sort_rows data others (some mine))

/-- Embeds `GamestatsDatabase.web_get2_nearlo` (mode 5): mirror of mode 4
with `(score - ?) <= 0`. -/
def web_get2_nearlo (store : List Row) (gamename : String) (pid : Int)
    (region : Nat) (category : Int) (data : Options) : Nat × List Row :=
  let mine := (fetch_mine store gamename pid region category).getD
    (get2_dictrow gamename pid 4294967295 category)
  let peers := store.filter (fun r =>
    decide (r.gamename = gamename) && decide (r.region &&& region ≠ 0) &&
    decide (r.category = category) && decide (r.pid ≠ pid) &&
    decide (r.score - mine.score ≤ 0) && decide (data.since ≤ r.updated))
  let ordered := sqlOrderBy (fun r => r.score) (FILTERS data.filter) peers
  let others := sqlLimit (data.limit.getD 10 - 1) ordered
  let total := (store.filter (fun r =>
    decide (r.gamename = gamename) && decide (r.region &&& region ≠ 0) &&
    decide (r.category = category) && decide (r.pid ≠ pid) &&
    decide (r.score - mine.score ≤ 0) && decide (data.since ≤ r.updated))).length
  (total, sort_rows data others (some mine))

/-- The time-filter resolution at the head of `web_get2`: when the
`updated` option is present and nonzero the cutoff is
`now - timedelta(minutes=updated)`, otherwise `datetime(1970, 1, 1)`
(epoch zero). -/
def resolveSince (now : Int) (data : Options) : Int :=
  match data.updated with
  | some m => if m = 0 then 0 else now - m
  | none => 0

/-- Embeds `GamestatsDatabase.web_get2`: resolves the since cutoff, writes
it into the options dict, then dispatches on `mode`; modes outside `0..5`
raise `ValueError("Unknown get2 mode: {}".format(mode))`.  The second
component of the result is the options dict as the call leaves it. -/
def web_get2 (store : List Row) (now : Int) (gamename : String) (pid : Int)
    (region : Nat) (category : Int) (mode : Int) (data : Options) :
    Except String (Nat × List Row) × Options :=
  let d := { data with since := resolveSince now data }
  let res : Except String (Nat × List Row) :=
    if mode = 0 then .ok (web_get2_own store gamename pid region category d)
    else if mode = 1 then .ok (web_get2_top store gamename pid region category d)
    else if mode = 2 then .ok (web_get2_nearby store gamename pid region category d)
    else if mode = 3 then .ok (web_get2_friends store gamename pid region category d)
    else if mode = 4 then .ok (web_get2_nearhi store gamename pid region category d)
    else if mode = 5 then .ok (web_get2_nearlo store gamename pid region category d)
    else .error ("Unknown get2 mode: " ++ toString mode)
  (res, d)

/-- The total-count component of a `web_get2` result, when it succeeded. -/
def totalOf (e : Except String (Nat × List Row)) : Option Nat :=
  match e with
  | .ok p => some p.1
  | .error _ => none

/-- The row-list component of a `web_get2` result, when it succeeded. -/
def rowsOf (e : Except String (Nat × List Row)) : Option (List Row) :=
  match e with
  | .ok p => some p.2
  | .error _ => none

/-- The error message of a `web_get2` result, when it failed. -/
def errorOf (e : Except String (Nat × List Row)) : Option String :=
  match e with
  | .ok _ => none
  | .error s => some s

/-- Record `(pid=7, score=50)` of the demo store used by the spec scenarios. -/
def demoRow7 : Row := ⟨"demo", 7, 1, 0, 50, "", 0⟩

/-- Record `(pid=8, score=80)` of the demo store used by the spec scenarios. -/
def demoRow8 : Row := ⟨"demo", 8, 1, 0, 80, "", 0⟩

/-- Record `(pid=9, score=30)` of the demo store used by the spec scenarios. -/
def demoRow9 : Row := ⟨"demo", 9, 1, 0, 30, "", 0⟩

/-- The three-record demo store of the spec scenarios: all region 1,
category 0, updated at time 0. -/
def demoStore : List Row := [demoRow7, demoRow8, demoRow9]

/-- A record for pid 7 whose `updated` stamp (0) lies before the since
cutoffs used in the time-window tests. -/
def staleRow : Row := ⟨"g", 7, 1, 0, 50, "", 0⟩

/-- A record for pid 7 in region 2: it exists for the requesting pid but
its region does not bitmask-overlap a query for region 1. -/
def strayRow : Row := ⟨"g", 7, 2, 0, 50, "", 100⟩

/-- A record in region 2, which bitmask-overlaps query region 3 without
being equal to it. -/
def maskRow : Row := ⟨"g", 7, 2, 0, 50, "", 0⟩

/-- A record in region 3, bitmask-overlapping query region 1 but not equal
to it. -/
def asymRow : Row := ⟨"g", 5, 3, 0, 10, "", 0⟩

/-- Inserting changes membership only by the inserted element. -/
theorem mem_insertByLe (le : Row → Row → Bool) (x : Row) (l : List Row) (y : Row) :
    y ∈ insertByLe le x l ↔ y = x ∨ y ∈ l := by
  induction l with
  | nil => simp [insertByLe]
  | cons z zs ih =>
    simp only [insertByLe]
    split
    · simp [List.mem_cons]
    · simp only [List.mem_cons, ih]
      tauto

/-- The stable sort is a permutation at the level of membership. -/
theorem mem_sortByLe (le : Row → Row → Bool) (l : List Row) (y : Row) :
    y ∈ sortByLe le l ↔ y ∈ l := by
  induction l with
  | nil => simp [sortByLe]
  | cons x xs ih => simp [sortByLe, mem_insertByLe, ih]

/-- Inserting grows the length by one. -/
theorem length_insertByLe (le : Row → Row → Bool) (x : Row) (l : List Row) :
    (insertByLe le x l).length = l.length + 1 := by
  induction l with
  | nil => rfl
  | cons z zs ih =>
    simp only [insertByLe]
    split
    · simp
    · simp [ih]

/-- The stable sort preserves length. -/
theorem length_sortByLe (le : Row → Row → Bool) (l : List Row) :
    (sortByLe le l).length = l.length := by
  induction l with
  | nil => rfl
  | cons x xs ih => simp [sortByLe, length_insertByLe, ih]

/-- `ORDER BY` preserves membership. -/
theorem mem_sqlOrderBy (key : Row → Int) (dir : String) (l : List Row) (y : Row) :
    y ∈ sqlOrderBy key dir l ↔ y ∈ l := by
  unfold sqlOrderBy
  split <;> simp [mem_sortByLe]

/-- `ORDER BY` preserves length. -/
theorem length_sqlOrderBy (key : Row → Int) (dir : String) (l : List Row) :
    (sqlOrderBy key dir l).length = l.length := by
  unfold sqlOrderBy
  split <;> simp [length_sortByLe]

/-- `LIMIT` only drops rows. -/
theorem mem_sqlLimit {n : Int} {l : List Row} {y : Row} (h : y ∈ sqlLimit n l) : y ∈ l := by
  unfold sqlLimit at h
  split at h
  · exact h
  · exact (List.take_sublist _ _).mem h

/-- A nonnegative `LIMIT` bounds the row count. -/
theorem length_sqlLimit_le {n : Int} (hn : 0 ≤ n) (l : List Row) :
    ((sqlLimit n l).length : Int) ≤ n := by
  unfold sqlLimit
  rw [if_neg (by omega)]
  have h := List.length_take_le n.toNat l
  omega

/-- With no `mine` row, `sort_rows` is the identity. -/
theorem sort_rows_none (d : Options) (rows : List Row) :
    sort_rows d rows none = rows := rfl

/-- With a `mine` row, the head of the composed result is always `mine`. -/
theorem head_sort_rows (d : Options) (rows : List Row) (m : Row) :
    (sort_rows d rows (some m)).head? = some m := by
  simp only [sort_rows]
  split <;> rfl

/-- With a `mine` row the composed result is one longer than the peers. -/
theorem length_sort_rows_some (d : Options) (rows : List Row) (m : Row) :
    (sort_rows d rows (some m)).length = rows.length + 1 := by
  simp only [sort_rows]
  split <;> simp [length_sortByLe]

/-- Everything after the prepended `mine` row is a fetched peer row. -/
theorem mem_drop_sort_rows {d : Options} {l : List Row} {m r : Row}
    (h : r ∈ (sort_rows d l (some m)).drop 1) : r ∈ l := by
  simp only [sort_rows] at h
  split at h <;>
    · rw [List.drop_one, List.tail_cons] at h
      exact (mem_sortByLe _ _ _).1 h

/-- A row surviving the filter-order-limit pipeline satisfies the filter
predicate. -/
theorem mem_limit_order {n : Int} {key : Row → Int} {dir : String} {p : Row → Bool}
    {store : List Row} {r : Row}
    (h : r ∈ sqlLimit n (sqlOrderBy key dir (store.filter p))) :
    r ∈ store ∧ p r = true :=
  List.mem_filter.1 ((mem_sqlOrderBy key dir _ r).1 (mem_sqlLimit h))

/-- A row surviving the filter-order pipeline satisfies the filter
predicate. -/
theorem mem_order {key : Row → Int} {dir : String} {p : Row → Bool}
    {store : List Row} {r : Row}
    (h : r ∈ sqlOrderBy key dir (store.filter p)) :
    r ∈ store ∧ p r = true :=
  List.mem_filter.1 ((mem_sqlOrderBy key dir _ r).1 h)

/-- Counting with a stronger predicate gives a smaller count. -/
theorem length_filter_mono {p q : Row → Bool} (l : List Row)
    (h : ∀ a, p a = true → q a = true) :
    (l.filter p).length ≤ (l.filter q).length :=
  (List.monotone_filter_right l h).length_le

/-- The head of a list is a member. -/
theorem mem_of_head_eq {l : List Row} {m : Row} (h : l.head? = some m) : m ∈ l := by
  cases l with
  | nil => cases h
  | cons x xs =>
    have hx : x = m := by simpa using h
    subst hx
    exact List.mem_cons_self _ _

/-- A row returned by mode 0 satisfies the WHERE predicate of its query. -/
theorem mem_rows_own {store : List Row} {g : String} {pid : Int} {region : Nat}
    {cat : Int} {d : Options} {r : Row}
    (h : r ∈ (web_get2_own store g pid region cat d).2) :
    (decide (r.gamename = g) && decide (r.region &&& region ≠ 0) &&
     decide (r.category = cat) && decide (d.since ≤ r.updated)) = true := by
  simp only [web_get2_own, sort_rows] at h
  split at h
  · split at h
    · exact (mem_order h).2
    · exact (mem_limit_order h).2
  · exact (mem_order h).2

/-- A row returned by mode 1 satisfies the WHERE predicate of its query. -/
theorem mem_rows_top {store : List Row} {g : String} {pid : Int} {region : Nat}
    {cat : Int} {d : Options} {r : Row}
    (h : r ∈ (web_get2_top store g pid region cat d).2) :
    (decide (r.gamename = g) && decide (r.region &&& region ≠ 0) &&
     decide (r.category = cat) && decide (d.since ≤ r.updated)) = true := by
  simp only [web_get2_top, sort_rows] at h
  exact (mem_limit_order h).2

/-- A peer row returned by mode 2 (everything after the prepended mine row)
satisfies the WHERE predicate of the peer query. -/
theorem mem_peers_nearby {store : List Row} {g : String} {pid : Int} {region : Nat}
    {cat : Int} {d : Options} {r : Row}
    (h : r ∈ ((web_get2_nearby store g pid region cat d).2).drop 1) :
    (decide (r.gamename = g) && decide (r.region &&& region ≠ 0) &&
     decide (r.category = cat) && decide (r.pid ≠ pid) &&
     decide (d.since ≤ r.updated)) = true := by
  simp only [web_get2_nearby] at h
  exact (mem_limit_order (mem_drop_sort_rows h)).2

/-- A peer row returned by mode 3 satisfies the WHERE predicate of the
friends query. -/
theorem mem_peers_friends {store : List Row} {g : String} {pid : Int} {region : Nat}
    {cat : Int} {d : Options} {r : Row}
    (h : r ∈ ((web_get2_friends store g pid region cat d).2).drop 1) :
    (decide (r.gamename = g) && decide (r.region = region) &&
     decide (r.category = cat) && (d.friends.getD []).contains r.pid &&
     decide (d.since ≤ r.updated)) = true := by
  simp only [web_get2_friends] at h
  exact (mem_limit_order (mem_drop_sort_rows h)).2

/-- A peer row returned by mode 4 satisfies the WHERE predicate of the
near-high peer query. -/
theorem mem_peers_nearhi {store : List Row} {g : String} {pid : Int} {region : Nat}
    {cat : Int} {d : Options} {r : Row}
    (h : r ∈ ((web_get2_nearhi store g pid region cat d).2).drop 1) :
    (decide (r.gamename = g) && decide (r.region &&& region ≠ 0) &&
     decide (r.category = cat) && decide (r.pid ≠ pid) &&
     decide (0 ≤ r.score - ((fetch_mine store g pid region cat).getD
       (get2_dictrow g pid 4294967295 cat)).score) &&
     decide (d.since ≤ r.updated)) = true := by
  simp only [web_get2_nearhi] at h
  exact (mem_limit_order (mem_drop_sort_rows h)).2

/-- A peer row returned by mode 5 satisfies the WHERE predicate of the
near-low peer query. -/
theorem mem_peers_nearlo {store : List Row} {g : String} {pid : Int} {region : Nat}
    {cat : Int} {d : Options} {r : Row}
    (h : r ∈ ((web_get2_nearlo store g pid region cat d).2).drop 1) :
    (decide (r.gamename = g) && decide (r.region &&& region ≠ 0) &&
     decide (r.category = cat) && decide (r.pid ≠ pid) &&
     decide (r.score - ((fetch_mine store g pid region cat).getD
       (get2_dictrow g pid 4294967295 cat)).score ≤ 0) &&
     decide (d.since ≤ r.updated)) = true := by
  simp only [web_get2_nearlo] at h
  exact (mem_limit_order (mem_drop_sort_rows h)).2

/-- The mode-0 total is the count of rows matching its full predicate. -/
theorem total_own (store : List Row) (g : String) (pid : Int) (region : Nat)
    (cat : Int) (d : Options) :
    (web_get2_own store g pid region cat d).1 =
      (store.filter (fun r =>
        decide (r.gamename = g) && decide (r.region &&& region ≠ 0) &&
        decide (r.category = cat) && decide (d.since ≤ r.updated))).length := rfl

/-- The mode-1 total is the count of rows matching its full predicate. -/
theorem total_top (store : List Row) (g : String) (pid : Int) (region : Nat)
    (cat : Int) (d : Options) :
    (web_get2_top store g pid region cat d).1 =
      (store.filter (fun r =>
        decide (r.gamename = g) && decide (r.region &&& region ≠ 0) &&
        decide (r.category = cat) && decide (d.since ≤ r.updated))).length := rfl

/-- The mode-2 total is the count of peer rows (pid excluded) matching its
predicate. -/
theorem total_nearby (store : List Row) (g : String) (pid : Int) (region : Nat)
    (cat : Int) (d : Options) :
    (web_get2_nearby store g pid region cat d).1 =
      (store.filter (fun r =>
        decide (r.gamename = g) && decide (r.region &&& region ≠ 0) &&
        decide (r.category = cat) && decide (r.pid ≠ pid) &&
        decide (d.since ≤ r.updated))).length := rfl

/-- The mode-3 total is the count of friend rows matching its predicate. -/
theorem total_friends (store : List Row) (g : String) (pid : Int) (region : Nat)
    (cat : Int) (d : Options) :
    (web_get2_friends store g pid region cat d).1 =
      (store.filter (fun r =>
        decide (r.gamename = g) && decide (r.region = region) &&
        decide (r.category = cat) && (d.friends.getD []).contains r.pid &&
        decide (d.since ≤ r.updated))).length := rfl

/-- The mode-4 total is the count of peer rows at or above the requester
score matching its predicate. -/
theorem total_nearhi (store : List Row) (g : String) (pid : Int) (region : Nat)
    (cat : Int) (d : Options) :
    (web_get2_nearhi store g pid region cat d).1 =
      (store.filter (fun r =>
        decide (r.gamename = g) && decide (r.region &&& region ≠ 0) &&
        decide (r.category = cat) && decide (r.pid ≠ pid) &&
        decide (0 ≤ r.score - ((fetch_mine store g pid region cat).getD
          (get2_dictrow g pid 4294967295 cat)).score) &&
        decide (d.since ≤ r.updated))).length := rfl

/-- The mode-5 total is the count of peer rows at or below the requester
score matching its predicate. -/
theorem total_nearlo (store : List Row) (g : String) (pid : Int) (region : Nat)
    (cat : Int) (d : Options) :
    (web_get2_nearlo store g pid region cat d).1 =
      (store.filter (fun r =>
        decide (r.gamename = g) && decide (r.region &&& region ≠ 0) &&
        decide (r.category = cat) && decide (r.pid ≠ pid) &&
        decide (r.score - ((fetch_mine store g pid region cat).getD
          (get2_dictrow g pid 4294967295 cat)).score ≤ 0) &&
        decide (d.since ≤ r.updated))).length := rfl

/-- Claim C1, counterexample: the two sort-direction conventions are NOT
consistent when `options.filter` is absent.  The store-level direction is
then the empty modifier (`FILTERS none = ""`), which sorts ascending (the
SQL default), as the peer ordering `[score 30, score 80]` shows; the
in-memory post-merge sort of `sort_rows` uses the default key value 1, which
is truthy, and sorts the same peers descending `[score 80, score 30]`.  So
the two conventions disagree on the very case — filter absent — where the
claim asserts they both produce descending order. -/
theorem claim1_counterexample :
    FILTERS none = "" ∧
    sqlOrderBy (fun r => r.score) (FILTERS none) [demoRow9, demoRow8] =
      [demoRow9, demoRow8] ∧
    sort_rows {} [demoRow9, demoRow8] (some demoRow7) =
      [demoRow7, demoRow8, demoRow9] ∧
    ([demoRow9, demoRow8] : List Row) ≠ [demoRow8, demoRow9] := by
  refine ⟨rfl, by decide, by decide, by decide⟩

/-- Claim C1 (amended): the store-level ORDER BY direction and the
in-memory post-merge sort agree for the explicit filter values — filter 1
gives the `DESC` modifier and a descending in-memory sort, filter 0 gives
`ASC` and an ascending one, and in both cases the post-merge result equals
the requester row prepended to the store-level ordering of the peers.  When
the filter key is absent the two conventions disagree (store ascending,
memory descending) — see the counterexample. -/
theorem claim1_theorem : ∀ (f : Int) (o : Options) (rows : List Row) (mine : Row),
    f = 0 ∨ f = 1 → o.filter = some f →
    FILTERS o.filter = (if f = 1 then "DESC" else "ASC") ∧
    sort_rows o rows (some mine) =
      mine :: sqlOrderBy (fun r => r.score) (FILTERS o.filter) rows := by
  rintro f o rows mine (rfl | rfl) ho <;>
    simp [FILTERS, ho, sort_rows, sqlOrderBy]

/-- Witness for the amended C1 at filter value 1 and concrete rows. -/
theorem claim1_witness :
    FILTERS (({ filter := some 1 } : Options)).filter = (if (1 : Int) = 1 then "DESC" else "ASC") ∧
    sort_rows { filter := some 1 } [demoRow9, demoRow8] (some demoRow7) =
      demoRow7 :: sqlOrderBy (fun r => r.score)
        (FILTERS (({ filter := some 1 } : Options)).filter) [demoRow9, demoRow8] :=
  claim1_theorem 1 { filter := some 1 } [demoRow9, demoRow8] demoRow7 (Or.inr rfl) rfl

/-- Claim C2, counterexample: the engine does not special-case the empty
friend list.  The peer query it issues for `friends = []` is the generic
template instantiated with an empty literal list — it contains the
`pid IN ()` predicate, which standard SQL rejects as malformed and which
SQLite happens to accept as an always-false predicate.  (The double space
before `LIMIT` is the empty ORDER BY direction modifier.) -/
theorem claim2_counterexample :
    web_get2_friends_query_sql [] none =
      "SELECT * FROM ranking WHERE gamename = ? AND region = ? AND category = ? AND pid IN () AND updated >= ? ORDER BY score  LIMIT ?" := by
  decide

/-- Claim C2 (amended): for mode 3 with an empty (or absent) friend-id
list, retrieve returns total 0 and no peer rows — the row list is exactly
the single `mine` entry — and raises no error; but this happens because the
issued `pid IN ()` predicate matches nothing under SQLite, not because the
engine special-cases the empty list. -/
theorem claim2_theorem : ∀ (store : List Row) (now : Int) (g : String) (pid : Int)
    (region : Nat) (cat : Int) (o : Options), o.friends.getD [] = [] →
    (web_get2 store now g pid region cat 3 o).1 =
      .ok (0, [((fetch_mine store g pid region cat).getD
        (get2_dictrow g pid 4294967295 cat))]) := by
  intro store now g pid region cat o hf
  simp [web_get2, web_get2_friends, hf, sort_rows, sqlOrderBy, sqlLimit, sortByLe]

/-- Witness for the amended C2 on the demo store with an explicitly empty
friend list. -/
theorem claim2_witness :
    (web_get2 demoStore 0 "demo" 7 1 0 3 { friends := some [] }).1 =
      .ok (0, [((fetch_mine demoStore "demo" 7 1 0).getD
        (get2_dictrow "demo" 7 4294967295 0))]) :=
  claim2_theorem demoStore 0 "demo" 7 1 0 { friends := some [] } rfl

/-- Claim C3, counterexample: the "mine" row of modes 2..5 is fetched with
no `updated >= since` condition, so a record strictly older than the
resolved cutoff can appear in the returned rows.  Concretely: the store
holds only `staleRow` (updated 0), the request resolves since = 900, and
the mode-2 result still returns `staleRow` as its first row (while the
total correctly counts 0 peers). -/
theorem claim3_counterexample :
    resolveSince 1000 { updated := some 100 } = 900 ∧
    staleRow.updated < 900 ∧
    rowsOf (web_get2 [staleRow] 1000 "g" 7 1 0 2 { updated := some 100 }).1 =
      some [staleRow] ∧
    totalOf (web_get2 [staleRow] 1000 "g" 7 1 0 2 { updated := some 100 }).1 =
      some 0 := by
  refine ⟨by decide, by decide, by decide, by decide⟩

/-- Claim C3 (amended): for every mode 0..5, a record whose `updated` stamp
is strictly before the resolved since cutoff never appears among the PEER
rows (all rows in modes 0/1; everything after the prepended mine row in
modes 2..5) and is never counted in the returned total; the mine row of
modes 2..5, however, is fetched without the since condition and may be
older than the cutoff — see the counterexample. -/
theorem claim3_theorem : ∀ (store : List Row) (now : Int) (g : String) (pid : Int)
    (region : Nat) (cat : Int) (mode : Int) (o : Options) (t : Nat) (rows : List Row),
    mode = 0 ∨ mode = 1 ∨ mode = 2 ∨ mode = 3 ∨ mode = 4 ∨ mode = 5 →
    (web_get2 store now g pid region cat mode o).1 = .ok (t, rows) →
    ((mode = 0 ∨ mode = 1) → ∀ r ∈ rows, resolveSince now o ≤ r.updated) ∧
    ((mode = 2 ∨ mode = 3 ∨ mode = 4 ∨ mode = 5) →
      ∀ r ∈ rows.drop 1, resolveSince now o ≤ r.updated) ∧
    t ≤ (store.filter (fun r => decide (resolveSince now o ≤ r.updated))).length := by
  intro store now g pid region cat mode o t rows hmode hres
  rcases hmode with rfl | rfl | rfl | rfl | rfl | rfl
  · have hres' : web_get2_own store g pid region cat
        { o with since := resolveSince now o } = (t, rows) := Except.ok.inj hres
    refine ⟨?_, ?_, ?_⟩
    · intro _ r hr
      have hb := mem_rows_own (show r ∈ (web_get2_own store g pid region cat
        { o with since := resolveSince now o }).2 by rw [hres']; exact hr)
      simp only [Bool.and_eq_true, decide_eq_true_eq] at hb
      exact hb.2
    · intro hh
      rcases hh with h | h | h | h <;> exact absurd h (by decide)
    · have ht : (web_get2_own store g pid region cat
          { o with since := resolveSince now o }).1 = t := by rw [hres']
      rw [← ht, total_own]
      refine length_filter_mono store ?_
      intro a ha
      simp only [Bool.and_eq_true, decide_eq_true_eq] at ha
      exact decide_eq_true ha.2
  · have hres' : web_get2_top store g pid region cat
        { o with since := resolveSince now o } = (t, rows) := Except.ok.inj hres
    refine ⟨?_, ?_, ?_⟩
    · intro _ r hr
      have hb := mem_rows_top (show r ∈ (web_get2_top store g pid region cat
        { o with since := resolveSince now o }).2 by rw [hres']; exact hr)
      simp only [Bool.and_eq_true, decide_eq_true_eq] at hb
      exact hb.2
    · intro hh
      rcases hh with h | h | h | h <;> exact absurd h (by decide)
    · have ht : (web_get2_top store g pid region cat
          { o with since := resolveSince now o }).1 = t := by rw [hres']
      rw [← ht, total_top]
      refine length_filter_mono store ?_
      intro a ha
      simp only [Bool.and_eq_true, decide_eq_true_eq] at ha
      exact decide_eq_true ha.2
  · have hres' : web_get2_nearby store g pid region cat
        { o with since := resolveSince now o } = (t, rows) := Except.ok.inj hres
    refine ⟨?_, ?_, ?_⟩
    · intro hh
      rcases hh with h | h <;> exact absurd h (by decide)
    · intro _ r hr
      have hb := mem_peers_nearby (show r ∈ ((web_get2_nearby store g pid region cat
        { o with since := resolveSince now o }).2).drop 1 by rw [hres']; exact hr)
      simp only [Bool.and_eq_true, decide_eq_true_eq] at hb
      exact hb.2
    · have ht : (web_get2_nearby store g pid region cat
          { o with since := resolveSince now o }).1 = t := by rw [hres']
      rw [← ht, total_nearby]
      refine length_filter_mono store ?_
      intro a ha
      simp only [Bool.and_eq_true, decide_eq_true_eq] at ha
      exact decide_eq_true ha.2
  · have hres' : web_get2_friends store g pid region cat
        { o with since := resolveSince now o } = (t, rows) := Except.ok.inj hres
    refine ⟨?_, ?_, ?_⟩
    · intro hh
      rcases hh with h | h <;> exact absurd h (by decide)
    · intro _ r hr
      have hb := mem_peers_friends (show r ∈ ((web_get2_friends store g pid region cat
        { o with since := resolveSince now o }).2).drop 1 by rw [hres']; exact hr)
      simp only [Bool.and_eq_true, decide_eq_true_eq] at hb
      exact hb.2
    · have ht : (web_get2_friends store g pid region cat
          { o with since := resolveSince now o }).1 = t := by rw [hres']
      rw [← ht, total_friends]
      refine length_filter_mono store ?_
      intro a ha
      simp only [Bool.and_eq_true, decide_eq_true_eq] at ha
      exact decide_eq_true ha.2
  · have hres' : web_get2_nearhi store g pid region cat
        { o with since := resolveSince now o } = (t, rows) := Except.ok.inj hres
    refine ⟨?_, ?_, ?_⟩
    · intro hh
      rcases hh with h | h <;> exact absurd h (by decide)
    · intro _ r hr
      have hb := mem_peers_nearhi (show r ∈ ((web_get2_nearhi store g pid region cat
        { o with since := resolveSince now o }).2).drop 1 by rw [hres']; exact hr)
      simp only [Bool.and_eq_true, decide_eq_true_eq] at hb
      exact hb.2
    · have ht : (web_get2_nearhi store g pid region cat
          { o with since := resolveSince now o }).1 = t := by rw [hres']
      rw [← ht, total_nearhi]
      refine length_filter_mono store ?_
      intro a ha
      simp only [Bool.and_eq_true, decide_eq_true_eq] at ha
      exact decide_eq_true ha.2
  · have hres' : web_get2_nearlo store g pid region cat
        { o with since := resolveSince now o } = (t, rows) := Except.ok.inj hres
    refine ⟨?_, ?_, ?_⟩
    · intro hh
      rcases hh with h | h <;> exact absurd h (by decide)
    · intro _ r hr
      have hb := mem_peers_nearlo (show r ∈ ((web_get2_nearlo store g pid region cat
        { o with since := resolveSince now o }).2).drop 1 by rw [hres']; exact hr)
      simp only [Bool.and_eq_true, decide_eq_true_eq] at hb
      exact hb.2
    · have ht : (web_get2_nearlo store g pid region cat
          { o with since := resolveSince now o }).1 = t := by rw [hres']
      rw [← ht, total_nearlo]
      refine length_filter_mono store ?_
      intro a ha
      simp only [Bool.and_eq_true, decide_eq_true_eq] at ha
      exact decide_eq_true ha.2

/-- Witness for the amended C3 at mode 1 on the demo store. -/
theorem claim3_witness :
    (((1 : Int) = 0 ∨ (1 : Int) = 1) →
      ∀ r ∈ [demoRow9, demoRow7, demoRow8], resolveSince 0 ({} : Options) ≤ r.updated) ∧
    (((1 : Int) = 2 ∨ (1 : Int) = 3 ∨ (1 : Int) = 4 ∨ (1 : Int) = 5) →
      ∀ r ∈ ([demoRow9, demoRow7, demoRow8] : List Row).drop 1,
        resolveSince 0 ({} : Options) ≤ r.updated) ∧
    3 ≤ (demoStore.filter (fun r =>
      decide (resolveSince 0 ({} : Options) ≤ r.updated))).length :=
  claim3_theorem demoStore 0 "demo" 7 1 0 1 {} 3 [demoRow9, demoRow7, demoRow8]
    (Or.inr (Or.inl rfl)) (by rfl)

/-- Claim C4, counterexample: in the spec scenario (store pid7/50, pid8/80,
pid9/30, mode 2, pid 7, limit 3) the returned rows are NOT
`[mine, pid9, pid8]`: the distance ordering `|50-score|` only governs which
peers the `LIMIT` keeps; `sort_rows` then re-sorts the kept peers by score
descending (filter absent, default 1), so the result is
`[mine, pid8, pid9]`. -/
theorem claim4_counterexample :
    rowsOf (web_get2 demoStore 0 "demo" 7 1 0 2 { limit := some 3 }).1 =
      some [demoRow7, demoRow8, demoRow9] ∧
    some [demoRow7, demoRow8, demoRow9] ≠
      some [demoRow7, demoRow9, demoRow8] := by
  refine ⟨by decide, by decide⟩

/-- Claim C4 (amended): in the scenario the retrieve returns mine
(pid 7, score 50) first and total 2; the absolute-score-distance ordering
governs which peers survive the limit (with limit 2 only the nearest peer,
pid 9 at distance 20, is kept), but the returned peers are re-sorted by
score (descending by default), so with limit 3 the rows are
`[mine, pid8, pid9]`, not `[mine, pid9, pid8]`. -/
theorem claim4_theorem :
    totalOf (web_get2 demoStore 0 "demo" 7 1 0 2 { limit := some 3 }).1 = some 2 ∧
    rowsOf (web_get2 demoStore 0 "demo" 7 1 0 2 { limit := some 3 }).1 =
      some [demoRow7, demoRow8, demoRow9] ∧
    rowsOf (web_get2 demoStore 0 "demo" 7 1 0 2 { limit := some 2 }).1 =
      some [demoRow7, demoRow9] := by
  refine ⟨by decide, by decide, by decide⟩

/-- Claim C5, counterexample: the effective peer limit is NOT floored at 0.
With `limit = 0` in mode 2 the peer query runs with
`LIMIT 0 - 1 = LIMIT -1`, which is unbounded in SQLite, so the returned
rows (mine plus every peer) exceed the requested limit 0. -/
theorem claim5_counterexample :
    rowsOf (web_get2 demoStore 0 "demo" 7 1 0 2 { limit := some 0 }).1 =
      some [demoRow7, demoRow8, demoRow9] ∧
    ¬ (([demoRow7, demoRow8, demoRow9] : List Row).length ≤ 0) := by
  refine ⟨by decide, by decide⟩

/-- Claim C5 (amended): the limit bounds hold only where the code applies a
limit clause.  Mode 1 always applies `LIMIT limit` (default 10), so its
rows obey the bound whenever the effective limit is nonnegative.  Modes
2..5 fetch at most `limit - 1` peers and prepend mine, so the rows obey the
bound whenever the effective limit is at least 1; with `limit = 0` the peer
query becomes `LIMIT -1`, which is unbounded (see the counterexample), so
there is no floor at 0.  Mode 0 applies a limit clause only when the limit
key is present with a nonzero value; with the key absent or zero it returns
every matching row. -/
theorem claim5_theorem :
    (∀ (store : List Row) (now : Int) (g : String) (pid : Int) (region : Nat)
       (cat : Int) (o : Options) (t : Nat) (rows : List Row),
       0 ≤ o.limit.getD 10 →
       (web_get2 store now g pid region cat 1 o).1 = .ok (t, rows) →
       (rows.length : Int) ≤ o.limit.getD 10) ∧
    (∀ (store : List Row) (now : Int) (g : String) (pid : Int) (region : Nat)
       (cat : Int) (mode : Int) (o : Options) (t : Nat) (rows : List Row),
       mode = 2 ∨ mode = 3 ∨ mode = 4 ∨ mode = 5 →
       1 ≤ o.limit.getD 10 →
       (web_get2 store now g pid region cat mode o).1 = .ok (t, rows) →
       (rows.length : Int) ≤ o.limit.getD 10 ∧
       ((rows.drop 1).length : Int) ≤ o.limit.getD 10 - 1) ∧
    (∀ (store : List Row) (now : Int) (g : String) (pid : Int) (region : Nat)
       (cat : Int) (o : Options) (l : Int) (t : Nat) (rows : List Row),
       o.limit = some l → 1 ≤ l →
       (web_get2 store now g pid region cat 0 o).1 = .ok (t, rows) →
       (rows.length : Int) ≤ l) := by
  refine ⟨?_, ?_, ?_⟩
  · intro store now g pid region cat o t rows hl hres
    have hres' : web_get2_top store g pid region cat
        { o with since := resolveSince now o } = (t, rows) := Except.ok.inj hres
    have hr : (web_get2_top store g pid region cat
        { o with since := resolveSince now o }).2 = rows := by rw [hres']
    simp only [web_get2_top, sort_rows] at hr
    rw [← hr]
    exact length_sqlLimit_le hl _
  · intro store now g pid region cat mode o t rows hmode hl hres
    have key : ∀ (peers : List Row) (m : Row),
        rows = sort_rows { o with since := resolveSince now o }
          (sqlLimit (o.limit.getD 10 - 1) peers) (some m) →
        (rows.length : Int) ≤ o.limit.getD 10 ∧
        ((rows.drop 1).length : Int) ≤ o.limit.getD 10 - 1 := by
      intro peers m hrows
      have h1 : rows.length =
          (sqlLimit (o.limit.getD 10 - 1) peers).length + 1 := by
        rw [hrows]; exact length_sort_rows_some _ _ _
      have h2 := length_sqlLimit_le (n := o.limit.getD 10 - 1) (by omega) peers
      constructor
      · omega
      · have h3 : (rows.drop 1).length = rows.length - 1 := List.length_drop 1 rows
        omega
    rcases hmode with rfl | rfl | rfl | rfl
    · have hres' : web_get2_nearby store g pid region cat
          { o with since := resolveSince now o } = (t, rows) := Except.ok.inj hres
      have hr : rows = (web_get2_nearby store g pid region cat
          { o with since := resolveSince now o }).2 := by rw [hres']
      simp only [web_get2_nearby] at hr
      exact key _ _ hr
    · have hres' : web_get2_friends store g pid region cat
          { o with since := resolveSince now o } = (t, rows) := Except.ok.inj hres
      have hr : rows = (web_get2_friends store g pid region cat
          { o with since := resolveSince now o }).2 := by rw [hres']
      simp only [web_get2_friends] at hr
      exact key _ _ hr
    · have hres' : web_get2_nearhi store g pid region cat
          { o with since := resolveSince now o } = (t, rows) := Except.ok.inj hres
      have hr : rows = (web_get2_nearhi store g pid region cat
          { o with since := resolveSince now o }).2 := by rw [hres']
      simp only [web_get2_nearhi] at hr
      exact key _ _ hr
    · have hres' : web_get2_nearlo store g pid region cat
          { o with since := resolveSince now o } = (t, rows) := Except.ok.inj hres
      have hr : rows = (web_get2_nearlo store g pid region cat
          { o with since := resolveSince now o }).2 := by rw [hres']
      simp only [web_get2_nearlo] at hr
      exact key _ _ hr
  · intro store now g pid region cat o l t rows hsome hl hres
    have hres' : web_get2_own store g pid region cat
        { o with since := resolveSince now o } = (t, rows) := Except.ok.inj hres
    have hr : (web_get2_own store g pid region cat
        { o with since := resolveSince now o }).2 = rows := by rw [hres']
    simp only [web_get2_own, sort_rows, hsome] at hr
    rw [if_neg (by omega)] at hr
    rw [← hr]
    exact length_sqlLimit_le (by omega) _

/-- Witness for the amended C5: mode 1 with limit 2 (two rows, bound 2),
mode 2 with limit 2 (mine plus one peer, bound 2), and mode 0 with an
explicit limit 2 (two rows, bound 2). -/
theorem claim5_witness :
    ((([demoRow8, demoRow7] : List Row).length : Int) ≤
      ({ limit := some 2, filter := some 1 } : Options).limit.getD 10) ∧
    ((([demoRow7, demoRow9] : List Row).length : Int) ≤
        ({ limit := some 2 } : Options).limit.getD 10 ∧
      ((([demoRow7, demoRow9] : List Row).drop 1).length : Int) ≤
        ({ limit := some 2 } : Options).limit.getD 10 - 1) ∧
    ((([demoRow9, demoRow7] : List Row).length : Int) ≤ 2) :=
  ⟨claim5_theorem.1 demoStore 0 "demo" 7 1 0 { limit := some 2, filter := some 1 }
      3 [demoRow8, demoRow7] (by decide) (by rfl),
   claim5_theorem.2.1 demoStore 0 "demo" 7 1 0 2 { limit := some 2 }
      2 [demoRow7, demoRow9] (Or.inl rfl) (by decide) (by rfl),
   claim5_theorem.2.2 demoStore 0 "demo" 7 1 0 { limit := some 2 }
      2 3 [demoRow9, demoRow7] rfl (by decide) (by rfl)⟩

/-- Claim C6: for every mode the returned total is the count of all store
rows matching that mode's full predicate (region test, category, since
cutoff, and peer filter), and it is independent of the limit option.  The
count predicate of modes 0 and 1 has no pid condition, so the requester's
own matching row is included; modes 2, 4 and 5 exclude `pid = self` (and 4
and 5 add the relative-score filter against the mine score); mode 3 counts
the friend rows.  The total is never adjusted for the mine row prepended in
modes 2..5, so the length of the returned rows may differ from the total —
the last conjunct exhibits an instance (empty store, mode 2: total 0 but
one returned row, the synthetic mine). -/
theorem claim6_theorem :
    (∀ (store : List Row) (now : Int) (g : String) (pid : Int) (region : Nat)
       (cat : Int) (mode : Int) (o : Options) (l : Option Int),
       mode = 0 ∨ mode = 1 ∨ mode = 2 ∨ mode = 3 ∨ mode = 4 ∨ mode = 5 →
       totalOf (web_get2 store now g pid region cat mode { o with limit := l }).1 =
         totalOf (web_get2 store now g pid region cat mode o).1) ∧
    (∀ (store : List Row) (now : Int) (g : String) (pid : Int) (region : Nat)
       (cat : Int) (o : Options),
       totalOf (web_get2 store now g pid region cat 0 o).1 =
         some ((store.filter (fun r =>
           decide (r.gamename = g) && decide (r.region &&& region ≠ 0) &&
           decide (r.category = cat) &&
           decide (resolveSince now o ≤ r.updated))).length) ∧
       totalOf (web_get2 store now g pid region cat 1 o).1 =
         some ((store.filter (fun r =>
           decide (r.gamename = g) && decide (r.region &&& region ≠ 0) &&
           decide (r.category = cat) &&
           decide (resolveSince now o ≤ r.updated))).length)) ∧
    (∀ (store : List Row) (now : Int) (g : String) (pid : Int) (region : Nat)
       (cat : Int) (o : Options),
       totalOf (web_get2 store now g pid region cat 2 o).1 =
         some ((store.filter (fun r =>
           decide (r.gamename = g) && decide (r.region &&& region ≠ 0) &&
           decide (r.category = cat) && decide (r.pid ≠ pid) &&
           decide (resolveSince now o ≤ r.updated))).length) ∧
       totalOf (web_get2 store now g pid region cat 3 o).1 =
         some ((store.filter (fun r =>
           decide (r.gamename = g) && decide (r.region = region) &&
           decide (r.category = cat) && (o.friends.getD []).contains r.pid &&
           decide (resolveSince now o ≤ r.updated))).length) ∧
       totalOf (web_get2 store now g pid region cat 4 o).1 =
         some ((store.filter (fun r =>
           decide (r.gamename = g) && decide (r.region &&& region ≠ 0) &&
           decide (r.category = cat) && decide (r.pid ≠ pid) &&
           decide (0 ≤ r.score - ((fetch_mine store g pid region cat).getD
             (get2_dictrow g pid 4294967295 cat)).score) &&
           decide (resolveSince now o ≤ r.updated))).length) ∧
       totalOf (web_get2 store now g pid region cat 5 o).1 =
         some ((store.filter (fun r =>
           decide (r.gamename = g) && decide (r.region &&& region ≠ 0) &&
           decide (r.category = cat) && decide (r.pid ≠ pid) &&
           decide (r.score - ((fetch_mine store g pid region cat).getD
             (get2_dictrow g pid 4294967295 cat)).score ≤ 0) &&
           decide (resolveSince now o ≤ r.updated))).length)) ∧
    (totalOf (web_get2 [] 0 "g" 7 1 0 2 {}).1 = some 0 ∧
     rowsOf (web_get2 [] 0 "g" 7 1 0 2 {}).1 =
       some [get2_dictrow "g" 7 4294967295 0] ∧
     Option.map List.length (rowsOf (web_get2 [] 0 "g" 7 1 0 2 {}).1) ≠
       totalOf (web_get2 [] 0 "g" 7 1 0 2 {}).1) := by
  refine ⟨?_, ?_, ?_, by decide, by decide, by decide⟩
  · intro store now g pid region cat mode o l hmode
    rcases hmode with rfl | rfl | rfl | rfl | rfl | rfl <;> rfl
  · intro store now g pid region cat o
    exact ⟨rfl, rfl⟩
  · intro store now g pid region cat o
    exact ⟨rfl, rfl, rfl, rfl⟩

/-- Witness for C6: limit-independence applied at mode 2 on the demo store
with limits 5 versus absent. -/
theorem claim6_witness :
    totalOf (web_get2 demoStore 0 "demo" 7 1 0 2
        { ({} : Options) with limit := some 5 }).1 =
      totalOf (web_get2 demoStore 0 "demo" 7 1 0 2 ({} : Options)).1 :=
  claim6_theorem.1 demoStore 0 "demo" 7 1 0 2 {} (some 5)
    (Or.inr (Or.inr (Or.inl rfl)))

/-- Claim C7, counterexample: a ranking record existing for the requesting
pid is NOT always returned as the mine entry.  `strayRow` is a record for
pid 7 (same game, same category) in region 2; a mode-4 retrieve querying
region 1 finds no bitmask match (2 AND 1 = 0), so the synthetic record is
used instead of the existing one. -/
theorem claim7_counterexample :
    strayRow.pid = 7 ∧ strayRow.gamename = "g" ∧ strayRow.category = 0 ∧
    rowsOf (web_get2 [strayRow] 0 "g" 7 1 0 4 {}).1 =
      some [get2_dictrow "g" 7 4294967295 0] ∧
    get2_dictrow "g" 7 4294967295 0 ≠ strayRow := by
  refine ⟨rfl, rfl, rfl, by decide, by decide⟩

/-- Claim C7 (amended): for modes 2, 4, 5, if the mine lookup — exact pid
within same game and category AND region bitmask-overlapping the query
region — finds a record, the first such record is returned verbatim as the
first returned row; if it finds none, the synthetic record
`get2_dictrow g pid 0xFFFFFFFF cat` (score 0, empty data, epoch-zero
updated) takes its place, and the relative-score peer filters of modes 4
and 5 then count rows with `score >= 0` resp. `score <= 0`, i.e. they
behave as if the requester score were 0.  A record that exists for the pid
but fails the region bitmask test is NOT returned verbatim — see the
counterexample. -/
theorem claim7_theorem : ∀ (store : List Row) (now : Int) (g : String) (pid : Int)
    (region : Nat) (cat : Int) (mode : Int) (o : Options) (t : Nat) (rows : List Row),
    mode = 2 ∨ mode = 4 ∨ mode = 5 →
    (web_get2 store now g pid region cat mode o).1 = .ok (t, rows) →
    (∀ m : Row, fetch_mine store g pid region cat = some m → rows.head? = some m) ∧
    (fetch_mine store g pid region cat = none →
      rows.head? = some (get2_dictrow g pid 4294967295 cat) ∧
      (mode = 4 → t = (store.filter (fun r =>
        decide (r.gamename = g) && decide (r.region &&& region ≠ 0) &&
        decide (r.category = cat) && decide (r.pid ≠ pid) &&
        decide (0 ≤ r.score) &&
        decide (resolveSince now o ≤ r.updated))).length) ∧
      (mode = 5 → t = (store.filter (fun r =>
        decide (r.gamename = g) && decide (r.region &&& region ≠ 0) &&
        decide (r.category = cat) && decide (r.pid ≠ pid) &&
        decide (r.score ≤ 0) &&
        decide (resolveSince now o ≤ r.updated))).length)) := by
  intro store now g pid region cat mode o t rows hmode hres
  rcases hmode with rfl | rfl | rfl
  · have hres' : web_get2_nearby store g pid region cat
        { o with since := resolveSince now o } = (t, rows) := Except.ok.inj hres
    have hr : (web_get2_nearby store g pid region cat
        { o with since := resolveSince now o }).2 = rows := by rw [hres']
    refine ⟨?_, ?_⟩
    · intro m hm
      rw [← hr]
      simp only [web_get2_nearby, hm, Option.getD_some]
      exact head_sort_rows _ _ _
    · intro hnone
      refine ⟨?_, ?_, ?_⟩
      · rw [← hr]
        simp only [web_get2_nearby, hnone, Option.getD_none]
        exact head_sort_rows _ _ _
      · intro h4
        exact absurd h4 (by decide)
      · intro h5
        exact absurd h5 (by decide)
  · have hres' : web_get2_nearhi store g pid region cat
        { o with since := resolveSince now o } = (t, rows) := Except.ok.inj hres
    have hr : (web_get2_nearhi store g pid region cat
        { o with since := resolveSince now o }).2 = rows := by rw [hres']
    have ht : (web_get2_nearhi store g pid region cat
        { o with since := resolveSince now o }).1 = t := by rw [hres']
    refine ⟨?_, ?_⟩
    · intro m hm
      rw [← hr]
      simp only [web_get2_nearhi, hm, Option.getD_some]
      exact head_sort_rows _ _ _
    · intro hnone
      refine ⟨?_, ?_, ?_⟩
      · rw [← hr]
        simp only [web_get2_nearhi, hnone, Option.getD_none]
        exact head_sort_rows _ _ _
      · intro _
        rw [← ht, total_nearhi, hnone]
        simp [get2_dictrow]
      · intro h5
        exact absurd h5 (by decide)
  · have hres' : web_get2_nearlo store g pid region cat
        { o with since := resolveSince now o } = (t, rows) := Except.ok.inj hres
    have hr : (web_get2_nearlo store g pid region cat
        { o with since := resolveSince now o }).2 = rows := by rw [hres']
    have ht : (web_get2_nearlo store g pid region cat
        { o with since := resolveSince now o }).1 = t := by rw [hres']
    refine ⟨?_, ?_⟩
    · intro m hm
      rw [← hr]
      simp only [web_get2_nearlo, hm, Option.getD_some]
      exact head_sort_rows _ _ _
    · intro hnone
      refine ⟨?_, ?_, ?_⟩
      · rw [← hr]
        simp only [web_get2_nearlo, hnone, Option.getD_none]
        exact head_sort_rows _ _ _
      · intro h4
        exact absurd h4 (by decide)
      · intro _
        rw [← ht, total_nearlo, hnone]
        simp [get2_dictrow]

/-- Witness for the amended C7: on the demo store the existing record of
pid 7 heads the mode-4 result; on the empty store the synthetic record
heads it. -/
theorem claim7_witness :
    ([demoRow7, demoRow8] : List Row).head? = some demoRow7 ∧
    ([get2_dictrow "g" 7 4294967295 0] : List Row).head? =
      some (get2_dictrow "g" 7 4294967295 0) :=
  ⟨(claim7_theorem demoStore 0 "demo" 7 1 0 4 {} 1 [demoRow7, demoRow8]
      (Or.inr (Or.inl rfl)) (by rfl)).1 demoRow7 (by rfl),
   ((claim7_theorem [] 0 "g" 7 1 0 4 {} 0 [get2_dictrow "g" 7 4294967295 0]
      (Or.inr (Or.inl rfl)) (by rfl)).2 (by rfl)).1⟩

/-- Claim C8, counterexample: the region test of mode 3 is NOT exact
equality for every record it matches.  The mine lookup inside mode 3 uses
the bitmask test: `maskRow` lives in region 2, the query asks for region 3,
and although 2 differs from 3, the mode-3 result returns `maskRow` as its
mine row because 2 AND 3 is nonzero. -/
theorem claim8_counterexample :
    rowsOf (web_get2 [maskRow] 0 "g" 7 3 0 3 { friends := some [9] }).1 =
      some [maskRow] ∧
    maskRow.region ≠ 3 ∧ maskRow.region &&& 3 ≠ 0 := by
  refine ⟨by decide, by decide, by decide⟩

/-- Claim C8 (amended): the region asymmetry holds for the peer/count
queries — modes 0, 1 match rows by `record.region AND query.region` being
nonzero, modes 2, 4, 5 match their peers the same way, and the mode-3 peer
query matches by exact equality `record.region = query.region` — but the
own-row lookup shared by modes 2..5 (mode 3 included) also uses the bitmask
test, so a mode-3 result can contain a mine row whose region merely
overlaps the query region (see the counterexample).  The final conjunct
exhibits the asymmetry: a region-3 record is counted by a region-1 mode-1
query (bitmask overlap) but not by the corresponding mode-3 friends
query (no equality). -/
theorem claim8_theorem :
    (∀ (store : List Row) (now : Int) (g : String) (pid : Int) (region : Nat)
       (cat : Int) (mode : Int) (o : Options) (t : Nat) (rows : List Row),
       mode = 0 ∨ mode = 1 →
       (web_get2 store now g pid region cat mode o).1 = .ok (t, rows) →
       ∀ r ∈ rows, r.region &&& region ≠ 0) ∧
    (∀ (store : List Row) (now : Int) (g : String) (pid : Int) (region : Nat)
       (cat : Int) (mode : Int) (o : Options) (t : Nat) (rows : List Row),
       mode = 2 ∨ mode = 4 ∨ mode = 5 →
       (web_get2 store now g pid region cat mode o).1 = .ok (t, rows) →
       ∀ r ∈ rows.drop 1, r.region &&& region ≠ 0) ∧
    (∀ (store : List Row) (now : Int) (g : String) (pid : Int) (region : Nat)
       (cat : Int) (o : Options) (t : Nat) (rows : List Row),
       (web_get2 store now g pid region cat 3 o).1 = .ok (t, rows) →
       ∀ r ∈ rows.drop 1, r.region = region) ∧
    (∀ (store : List Row) (g : String) (pid : Int) (region : Nat) (cat : Int)
       (m : Row), fetch_mine store g pid region cat = some m →
       m.region &&& region ≠ 0) ∧
    (totalOf (web_get2 [asymRow] 0 "g" 7 1 0 1 {}).1 = some 1 ∧
     totalOf (web_get2 [asymRow] 0 "g" 7 1 0 3 { friends := some [5] }).1 = some 0 ∧
     asymRow.region &&& 1 ≠ 0 ∧ asymRow.region ≠ 1) := by
  refine ⟨?_, ?_, ?_, ?_, by decide, by decide, by decide, by decide⟩
  · intro store now g pid region cat mode o t rows hmode hres
    rcases hmode with rfl | rfl
    · have hres' : web_get2_own store g pid region cat
          { o with since := resolveSince now o } = (t, rows) := Except.ok.inj hres
      intro r hr
      have hb := mem_rows_own (show r ∈ (web_get2_own store g pid region cat
        { o with since := resolveSince now o }).2 by rw [hres']; exact hr)
      simp only [Bool.and_eq_true, decide_eq_true_eq] at hb
      exact hb.1.1.2
    · have hres' : web_get2_top store g pid region cat
          { o with since := resolveSince now o } = (t, rows) := Except.ok.inj hres
      intro r hr
      have hb := mem_rows_top (show r ∈ (web_get2_top store g pid region cat
        { o with since := resolveSince now o }).2 by rw [hres']; exact hr)
      simp only [Bool.and_eq_true, decide_eq_true_eq] at hb
      exact hb.1.1.2
  · intro store now g pid region cat mode o t rows hmode hres
    rcases hmode with rfl | rfl | rfl
    · have hres' : web_get2_nearby store g pid region cat
          { o with since := resolveSince now o } = (t, rows) := Except.ok.inj hres
      intro r hr
      have hb := mem_peers_nearby (show r ∈ ((web_get2_nearby store g pid region cat
        { o with since := resolveSince now o }).2).drop 1 by rw [hres']; exact hr)
      simp only [Bool.and_eq_true, decide_eq_true_eq] at hb
      exact hb.1.1.1.2
    · have hres' : web_get2_nearhi store g pid region cat
          { o with since := resolveSince now o } = (t, rows) := Except.ok.inj hres
      intro r hr
      have hb := mem_peers_nearhi (show r ∈ ((web_get2_nearhi store g pid region cat
        { o with since := resolveSince now o }).2).drop 1 by rw [hres']; exact hr)
      simp only [Bool.and_eq_true, decide_eq_true_eq] at hb
      exact hb.1.1.1.1.2
    · have hres' : web_get2_nearlo store g pid region cat
          { o with since := resolveSince now o } = (t, rows) := Except.ok.inj hres
      intro r hr
      have hb := mem_peers_nearlo (show r ∈ ((web_get2_nearlo store g pid region cat
        { o with since := resolveSince now o }).2).drop 1 by rw [hres']; exact hr)
      simp only [Bool.and_eq_true, decide_eq_true_eq] at hb
      exact hb.1.1.1.1.2
  · intro store now g pid region cat o t rows hres
    have hres' : web_get2_friends store g pid region cat
        { o with since := resolveSince now o } = (t, rows) := Except.ok.inj hres
    intro r hr
    have hb := mem_peers_friends (show r ∈ ((web_get2_friends store g pid region cat
      { o with since := resolveSince now o }).2).drop 1 by rw [hres']; exact hr)
    simp only [Bool.and_eq_true, decide_eq_true_eq] at hb
    exact hb.1.1.1.2
  · intro store g pid region cat m hm
    have hmem := mem_of_head_eq (l := store.filter (fun r =>
      decide (r.gamename = g) && decide (r.region &&& region ≠ 0) &&
      decide (r.category = cat) && decide (r.pid = pid))) hm
    have hb := (List.mem_filter.1 hmem).2
    simp only [Bool.and_eq_true, decide_eq_true_eq] at hb
    exact hb.1.1.2

/-- Witness for the amended C8: the mode-3 peer rows of the demo scenario
have region exactly 1. -/
theorem claim8_witness : demoRow8.region = 1 :=
  claim8_theorem.2.2.1 demoStore 0 "demo" 7 1 0 { friends := some [8, 9] }
    2 [demoRow7, demoRow8, demoRow9] (by rfl) demoRow8 (by decide)

/-- Claim C9: a mode value outside 0..5 makes `web_get2` fail with the
error message carrying the offending mode value (the pure embedding issues
no store query on that path), while each mode 0..5 dispatches to exactly
its strategy and returns its complete (total, rows) pair. -/
theorem claim9_theorem : ∀ (store : List Row) (now : Int) (g : String) (pid : Int)
    (region : Nat) (cat : Int) (mode : Int) (o : Options),
    (mode ≠ 0 → mode ≠ 1 → mode ≠ 2 → mode ≠ 3 → mode ≠ 4 → mode ≠ 5 →
      (web_get2 store now g pid region cat mode o).1 =
        .error ("Unknown get2 mode: " ++ toString mode)) ∧
    (mode = 0 → (web_get2 store now g pid region cat mode o).1 =
      .ok (web_get2_own store g pid region cat
        { o with since := resolveSince now o })) ∧
    (mode = 1 → (web_get2 store now g pid region cat mode o).1 =
      .ok (web_get2_top store g pid region cat
        { o with since := resolveSince now o })) ∧
    (mode = 2 → (web_get2 store now g pid region cat mode o).1 =
      .ok (web_get2_nearby store g pid region cat
        { o with since := resolveSince now o })) ∧
    (mode = 3 → (web_get2 store now g pid region cat mode o).1 =
      .ok (web_get2_friends store g pid region cat
        { o with since := resolveSince now o })) ∧
    (mode = 4 → (web_get2 store now g pid region cat mode o).1 =
      .ok (web_get2_nearhi store g pid region cat
        { o with since := resolveSince now o })) ∧
    (mode = 5 → (web_get2 store now g pid region cat mode o).1 =
      .ok (web_get2_nearlo store g pid region cat
        { o with since := resolveSince now o })) := by
  intro store now g pid region cat mode o
  refine ⟨?_, ?_, ?_, ?_, ?_, ?_, ?_⟩
  · intro h0 h1 h2 h3 h4 h5
    simp [web_get2, h0, h1, h2, h3, h4, h5]
  all_goals intro h
  all_goals subst h
  all_goals rfl

/-- Witness for C9: mode 9 yields the unknown-mode error naming 9; mode 2
dispatches to the nearby strategy. -/
theorem claim9_witness :
    (web_get2 demoStore 0 "demo" 7 1 0 9 {}).1 =
      .error ("Unknown get2 mode: " ++ toString (9 : Int)) ∧
    (web_get2 demoStore 0 "demo" 7 1 0 2 {}).1 =
      .ok (web_get2_nearby demoStore "demo" 7 1 0
        { ({} : Options) with since := resolveSince 0 ({} : Options) }) :=
  ⟨(claim9_theorem demoStore 0 "demo" 7 1 0 9 {}).1 (by decide) (by decide)
      (by decide) (by decide) (by decide) (by decide),
   (claim9_theorem demoStore 0 "demo" 7 1 0 2 {}).2.2.2.1 rfl⟩

/-- Claim C10: every `web_get2` call — any mode, including one that fails
with the unknown-mode error — leaves the caller-supplied options dict equal
to the original with exactly the `since` key overwritten by the resolved
cutoff, and no other key modified.  (The in-place dict write is modelled by
the options record returned in the second component.) -/
theorem claim10_theorem : ∀ (store : List Row) (now : Int) (g : String) (pid : Int)
    (region : Nat) (cat : Int) (mode : Int) (o : Options),
    (web_get2 store now g pid region cat mode o).2 =
      { o with since := resolveSince now o } := by
  intro store now g pid region cat mode o
  rfl

end Gamestats
